import Mathlib

/-!
Shallow embedding of the freee OAuth token lifecycle code of src/main.py
(lines 342 to 414).  Timestamps are modelled as integers counting seconds
in UTC; datetime plus timedelta arithmetic becomes integer addition.  The
database row of table oauth_token for provider freee is an OAuthRow and
the single-row store is an Option OAuthRow.  Database reads appear as
explicit parameters holding the value each read returns, the upsert
_save_freee_row as a function producing the written row, and the HTTP
exchange with the token issuer as an IssuerResult value describing the
response that came back.
-/

namespace FreeeShift

/-- SKEW is the constant of main.py line 347, dt.timedelta of 60 seconds,
modelled in seconds. -/
def SKEW : Int := 60

/-- One row of the oauth_token table (DDL at main.py lines 128 to 139) for
provider freee: access_token, refresh_token, expires_at (UTC, NOT NULL in
the DDL), and the passthrough metadata token_type and scope.  The
updated_at column is set to NOW() on every write and never read by the
token code, so it is omitted. -/
structure OAuthRow where
  access_token : String
  refresh_token : String
  expires_at : Int
  token_type : Option String
  scope : Option String

/-- Outcome of the HTTP POST to the freee token endpoint performed by
_refresh_with_freee (main.py lines 360 to 371): a 200 response carrying
the JSON fields access_token (required on line 377), expires_in,
refresh_token, token_type and scope (each optional, read with j.get); a
non-200 response carrying the body text; or a transport failure such as
the 15 second timeout of the httpx client expiring before a response. -/
inductive IssuerResult where
  | success (access_token : String) (expires_in : Option Int)
      (refresh_token : Option String) (token_type : Option String) (scope : Option String)
  | failure (text : String)
  | timeout

/-- Errors escaping the endpoint handlers: http s d models a fastapi
HTTPException with status s and detail d; transport models an uncaught
httpx transport or timeout exception, which the framework turns into a
plain 500 response carrying no provider detail. -/
inductive TokenError where
  | http (status : Nat) (detail : String)
  | transport

/-- The row written by _save_freee_row (main.py lines 352 to 358): the
INSERT ... ON CONFLICT (provider) DO UPDATE upsert replaces every field of
the freee row with the given values, so after the write the store holds
exactly this row. -/
def save_freee_row (at_ rt : String) (exp : Int) (typ sc : Option String) : OAuthRow :=
  { access_token := at_, refresh_token := rt, expires_at := exp,
    token_type := typ, scope := sc }

/-- _refresh_with_freee (main.py lines 360 to 377) as a function of the
refresh token it posts, the clock value read when the response is handled
(dt.datetime.utcnow() on line 375), and the issuer response.  On a non-200
response it raises HTTPException 502 with the response text appended to a
fixed prefix (line 373); on a transport failure the httpx exception
propagates; on success it returns the access token, the response
refresh_token falling back to the posted one (j.get with default rt on
line 377), the expiry respTime + expires_in with default 21600, minus
SKEW (line 375), and the passthrough metadata. -/
def refresh_with_freee (rt : String) (respTime : Int) (resp : IssuerResult) :
    Except TokenError (String × String × Int × Option String × Option String) :=
  match resp with
  | .timeout => .error .transport
  | .failure t => .error (.http 502 ("freee token refresh failed: " ++ t))
  | .success a ei rto typ sc =>
      .ok (a, rto.getD rt, respTime + ei.getD 21600 - SKEW, typ, sc)

/-- Observable outcome of one call of the issue_access_token handler: the
value returned or the exception raised, whether the HTTP call to the
issuer was performed, and the row passed to _save_freee_row when the
write was reached (none when no write happened; a transaction aborted by
an exception commits nothing). -/
structure CallResult where
  result : Except TokenError (String × Int)
  issuerCalled : Bool
  written : Option OAuthRow

/-- The issue_access_token handler (main.py lines 379 to 400) past the
shared-secret gate, as a function of the row the first read returns
(read1, line 385), the clock at the fast-path check (now1, line 389), the
row the re-read inside the transaction returns (reread, line 395), the
clock at the in-transaction check (now2, line 396), and the issuer
exchange.  The truthiness test on the expires_at column at lines 390 and
396 is always true because the column is NOT NULL and python datetimes
are truthy, so only the comparison remains.  The handler indexes the
re-read row without a None check and this subsystem never deletes the
row, so the re-read is modelled as a plain OAuthRow. -/
def issue_access_token (read1 : Option OAuthRow) (now1 now2 : Int)
    (reread : OAuthRow) (respTime : Int) (resp : IssuerResult) : CallResult :=
  match read1 with
  | none => ⟨.error (.http 404 "seed required"), false, none⟩
  | some row =>
    if row.expires_at > now1 + SKEW then
      ⟨.ok (row.access_token, row.expires_at), false, none⟩
    else if reread.expires_at > now2 + SKEW then
      ⟨.ok (reread.access_token, reread.expires_at), false, none⟩
    else
      match refresh_with_freee reread.refresh_token respTime resp with
      | .error err => ⟨.error err, true, none⟩
      | .ok (a, rt, exp, typ, sc) =>
          ⟨.ok (a, exp), true, some (save_freee_row a rt exp typ sc)⟩

/-- Clock readings and issuer behaviour of one sequential call: now1 and
now2 are the two utcnow() readings, respTime the clock when the issuer
response is handled, resp the issuer exchange. -/
structure CallEnv where
  now1 : Int
  now2 : Int
  respTime : Int
  resp : IssuerResult

/-- One call of issue_access_token against the store, executed with no
concurrent writer, so the in-transaction re-read returns the same row as
the first read; yields the observable outcome and the store after the
call (the upsert replaces the whole row whenever a write happened). -/
def stepCall (s : Option OAuthRow) (e : CallEnv) : CallResult × Option OAuthRow :=
  match s with
  | none => (issue_access_token none e.now1 e.now2 ⟨"", "", 0, none, none⟩ e.respTime e.resp, none)
  | some row =>
    let r := issue_access_token (some row) e.now1 e.now2 row e.respTime e.resp
    (r, some (r.written.getD row))

/-- Sequential execution of a list of calls, threading the store. -/
def runCalls (s : Option OAuthRow) : List CallEnv → List CallResult × Option OAuthRow
  | [] => ([], s)
  | e :: es =>
    ((stepCall s e).1 :: (runCalls (stepCall s e).2 es).1, (runCalls (stepCall s e).2 es).2)

/-- Expiry timestamps of the successfully returned tokens, in call order. -/
def returnedExpiries (rs : List CallResult) : List Int :=
  rs.filterMap fun r =>
    match r.result with
    | .ok p => some p.2
    | .error _ => none

/-- True when a success response reports a lifetime of at least 2 * SKEW
seconds; failures and timeouts impose nothing. -/
def issuerLifetimeOK : IssuerResult → Bool
  | .success _ ei _ _ _ => decide (2 * SKEW ≤ ei.getD 21600)
  | _ => true

/-- Expiry argument accepted by the seed endpoint (main.py lines 410 to
413): either a numeric relative lifetime in seconds, turned into
utcnow() plus that many seconds, or an ISO timestamp string parsed to an
absolute UTC time (the roundtrip through isoformat and fromisoformat is
the identity, so the parsed value is modelled directly). -/
inductive SeedExpiry where
  | absolute (t : Int)
  | relSeconds (n : Int)

/-- The seed_token handler (main.py lines 403 to 414) past the
shared-secret gate: normalises the expiry to an absolute timestamp and
writes the row through _save_freee_row with token_type and scope left at
their None defaults. -/
def seed_token (now : Int) (at_ rt : String) (exp : SeedExpiry) : OAuthRow :=
  match exp with
  | .relSeconds n => save_freee_row at_ rt (now + n) none none
  | .absolute t => save_freee_row at_ rt t none none

/-- Does the call fail with the RefreshRejected error kind, an HTTP 502
carrying provider detail? -/
def failsWithRefreshRejected (r : CallResult) : Bool :=
  match r.result with
  | .error (.http 502 _) => true
  | _ => false

/-- Claim C4: with no stored credential record, the call fails with the
404 seed-required error, performs no issuer call, writes nothing, and
leaves the store empty. -/
theorem C4_unseeded (now1 now2 rT : Int) (rr : OAuthRow) (resp : IssuerResult) (e : CallEnv) :
    issue_access_token none now1 now2 rr rT resp =
      ⟨.error (.http 404 "seed required"), false, none⟩ ∧
    stepCall none e = (⟨.error (.http 404 "seed required"), false, none⟩, none) :=
  ⟨rfl, rfl⟩

/-- Claim C9: the seed operation accepts the expiry either as a relative
lifetime in seconds or as an absolute timestamp; a numeric input N stores
expires_at equal to the current UTC time plus N seconds, written through
the upsert _save_freee_row. -/
theorem C9_seed_normalisation (now n t : Int) (a r : String) :
    seed_token now a r (.relSeconds n) = save_freee_row a r (now + n) none none ∧
    (seed_token now a r (.relSeconds n)).expires_at = now + n ∧
    seed_token now a r (.absolute t) = save_freee_row a r t none none :=
  ⟨rfl, rfl, rfl⟩

/-- Claim C3: when the stored record satisfies expires_at > now + SKEW at
the fast-path check, the call returns the stored access token and expiry
unchanged, performs no issuer call and no write, and repeated calls under
the same precondition return the identical access token. -/
theorem C3_fast_path (row rr : OAuthRow) (now1 now2 rT : Int) (resp : IssuerResult)
    (e1 e2 : CallEnv)
    (h : row.expires_at > now1 + SKEW)
    (he1 : row.expires_at > e1.now1 + SKEW) (he2 : row.expires_at > e2.now1 + SKEW) :
    issue_access_token (some row) now1 now2 rr rT resp =
      ⟨.ok (row.access_token, row.expires_at), false, none⟩ ∧
    (stepCall (some row) e1).2 = some row ∧
    (stepCall (stepCall (some row) e1).2 e2).1 =
      ⟨.ok (row.access_token, row.expires_at), false, none⟩ := by
  have hsc : stepCall (some row) e1 =
      (⟨.ok (row.access_token, row.expires_at), false, none⟩, some row) := by
    simp [stepCall, issue_access_token, h, he1]
  refine ⟨by simp [issue_access_token, h], by rw [hsc], ?_⟩
  rw [hsc]
  simp [stepCall, issue_access_token, he2]

/-- Witness for C3_fast_path on a concrete fresh record. -/
theorem C3_fast_path_witness :
    issue_access_token (some ⟨"a", "r", 1000, none, none⟩) 0 0 ⟨"a", "r", 1000, none, none⟩ 0
        .timeout = ⟨.ok ("a", 1000), false, none⟩ ∧
    (stepCall (some ⟨"a", "r", 1000, none, none⟩) ⟨0, 0, 0, .timeout⟩).2 =
      some ⟨"a", "r", 1000, none, none⟩ ∧
    (stepCall (stepCall (some ⟨"a", "r", 1000, none, none⟩) ⟨0, 0, 0, .timeout⟩).2
        ⟨5, 5, 5, .timeout⟩).1 = ⟨.ok ("a", 1000), false, none⟩ :=
  C3_fast_path ⟨"a", "r", 1000, none, none⟩ ⟨"a", "r", 1000, none, none⟩ 0 0 0 .timeout
    ⟨0, 0, 0, .timeout⟩ ⟨5, 5, 5, .timeout⟩ (by decide) (by decide) (by decide)

/-- Claim C6: on the slow path the handler re-reads the record inside the
transaction; whenever the re-read value is already fresh, the call
returns that value and its expiry without calling the issuer and without
writing. -/
theorem C6_reread_fresh (row rr : OAuthRow) (now1 now2 rT : Int) (resp : IssuerResult)
    (h1 : row.expires_at ≤ now1 + SKEW) (h2 : rr.expires_at > now2 + SKEW) :
    issue_access_token (some row) now1 now2 rr rT resp =
      ⟨.ok (rr.access_token, rr.expires_at), false, none⟩ := by
  simp [issue_access_token, not_lt.mpr h1, h2]

/-- Witness for C6_reread_fresh: the first read is stale, the re-read is
fresh, and the call returns the re-read value without issuer contact. -/
theorem C6_reread_fresh_witness :
    issue_access_token (some ⟨"a", "r", 0, none, none⟩) 0 0 ⟨"b", "r2", 1000, none, none⟩ 0
        .timeout = ⟨.ok ("b", 1000), false, none⟩ :=
  C6_reread_fresh ⟨"a", "r", 0, none, none⟩ ⟨"b", "r2", 1000, none, none⟩ 0 0 0 .timeout
    (by decide) (by decide)

/-- Claim C1: after a successful refresh the written row keeps exactly
the refresh token of the issuer response when one is present, and keeps
the previously stored refresh token when the response omits one; the old
token is never written when the issuer returned a new one. -/
theorem C1_rotation_preserved (row rr : OAuthRow) (now1 now2 rT : Int) (a : String)
    (ei : Option Int) (rto : Option String) (typ sc : Option String)
    (h1 : row.expires_at ≤ now1 + SKEW) (h2 : rr.expires_at ≤ now2 + SKEW) :
    ∃ w, (issue_access_token (some row) now1 now2 rr rT
        (.success a ei rto typ sc)).written = some w ∧
      (∀ r2, rto = some r2 → w.refresh_token = r2) ∧
      (rto = none → w.refresh_token = rr.refresh_token) := by
  refine ⟨save_freee_row a (rto.getD rr.refresh_token) (rT + ei.getD 21600 - SKEW) typ sc,
    ?_, ?_, ?_⟩
  · simp [issue_access_token, refresh_with_freee, not_lt.mpr h1, not_lt.mpr h2]
  · intro r2 hr
    subst hr
    rfl
  · intro hr
    subst hr
    rfl

/-- Witness for C1_rotation_preserved with a rotated refresh token. -/
theorem C1_rotation_preserved_witness :
    ∃ w, (issue_access_token (some ⟨"a", "r", 0, none, none⟩) 0 0 ⟨"a", "r", 0, none, none⟩ 0
        (.success "b" (some 21600) (some "r2") none none)).written = some w ∧
      (∀ r2, (some "r2" : Option String) = some r2 → w.refresh_token = r2) ∧
      ((some "r2" : Option String) = none → w.refresh_token = "r") :=
  C1_rotation_preserved ⟨"a", "r", 0, none, none⟩ ⟨"a", "r", 0, none, none⟩ 0 0 0 "b"
    (some 21600) (some "r2") none none (by decide) (by decide)

/-- Claim C10: when the issuer success response omits expires_in, the
handler behaves exactly as if the issuer had reported 21600 seconds, and
the written expiry is the response time plus 21600 minus SKEW. -/
theorem C10_default_lifetime (row rr : OAuthRow) (now1 now2 rT : Int) (a : String)
    (rto : Option String) (typ sc : Option String)
    (h1 : row.expires_at ≤ now1 + SKEW) (h2 : rr.expires_at ≤ now2 + SKEW) :
    issue_access_token (some row) now1 now2 rr rT (.success a none rto typ sc) =
      issue_access_token (some row) now1 now2 rr rT (.success a (some 21600) rto typ sc) ∧
    (issue_access_token (some row) now1 now2 rr rT (.success a none rto typ sc)).written =
      some (save_freee_row a (rto.getD rr.refresh_token) (rT + 21600 - SKEW) typ sc) := by
  constructor
  · rfl
  · simp [issue_access_token, refresh_with_freee, not_lt.mpr h1, not_lt.mpr h2]

/-- Witness for C10_default_lifetime at a concrete stale record. -/
theorem C10_default_lifetime_witness :
    issue_access_token (some ⟨"a", "r", 0, none, none⟩) 0 0 ⟨"a", "r", 0, none, none⟩ 0
        (.success "b" none none none none) =
      issue_access_token (some ⟨"a", "r", 0, none, none⟩) 0 0 ⟨"a", "r", 0, none, none⟩ 0
        (.success "b" (some 21600) none none none) ∧
    (issue_access_token (some ⟨"a", "r", 0, none, none⟩) 0 0 ⟨"a", "r", 0, none, none⟩ 0
        (.success "b" none none none none)).written =
      some (save_freee_row "b" "r" (0 + 21600 - SKEW) none none) :=
  C10_default_lifetime ⟨"a", "r", 0, none, none⟩ ⟨"a", "r", 0, none, none⟩ 0 0 0 "b"
    none none none (by decide) (by decide)

/-- Claim C2 counterexample: a refresh handled at time 0 with expires_in
21600 persists expires_at = 0 + 21600 - SKEW, yet a later call whose
fast-path check runs one second before that persisted expires_at, the
instant the claim says still returns the cached token without
refreshing, in fact reaches the issuer: the read-side comparison adds
SKEW a second time. -/
theorem C2_skew_counterexample :
    (issue_access_token (some ⟨"a", "r", 0, none, none⟩) 0 0 ⟨"a", "r", 0, none, none⟩ 0
        (.success "b" (some 21600) none none none)).written =
      some ⟨"b", "r", 0 + 21600 - SKEW, none, none⟩ ∧
    (issue_access_token (some ⟨"b", "r", 0 + 21600 - SKEW, none, none⟩)
        (0 + 21600 - SKEW - 1) (0 + 21600 - SKEW - 1) ⟨"b", "r", 0 + 21600 - SKEW, none, none⟩
        (0 + 21600 - SKEW - 1) (.success "c" (some 21600) none none none)).issuerCalled =
      true :=
  ⟨rfl, rfl⟩

/-- Claim C2 amended: a refresh whose success response reports expires_in
21600 at response time T persists expires_at = T + 21600 - SKEW; because
the read check compares expires_at against now + SKEW, the cached token
is returned exactly while the check time is below T + 21600 - 2 * SKEW:
one second before that bound the call returns the cached token without
refreshing, and one second past that bound it triggers a refresh.  SKEW
is applied at write time and again at read time, not uniformly once. -/
theorem C2_skew_amended (T rT2 now1 now2 : Int) (row rr : OAuthRow) (a r : String)
    (rto typ sc tt2 ss2 : Option String) (resp2 : IssuerResult)
    (h1 : row.expires_at ≤ now1 + SKEW) (h2 : rr.expires_at ≤ now2 + SKEW) :
    (issue_access_token (some row) now1 now2 rr T (.success a (some 21600) rto typ sc)).written =
      some (save_freee_row a (rto.getD rr.refresh_token) (T + 21600 - SKEW) typ sc) ∧
    issue_access_token (some ⟨a, r, T + 21600 - SKEW, tt2, ss2⟩) (T + 21600 - 2 * SKEW - 1)
        (T + 21600 - 2 * SKEW - 1) ⟨a, r, T + 21600 - SKEW, tt2, ss2⟩ rT2 resp2 =
      ⟨.ok (a, T + 21600 - SKEW), false, none⟩ ∧
    (issue_access_token (some ⟨a, r, T + 21600 - SKEW, tt2, ss2⟩) (T + 21600 - 2 * SKEW + 1)
        (T + 21600 - 2 * SKEW + 1) ⟨a, r, T + 21600 - SKEW, tt2, ss2⟩ rT2 resp2).issuerCalled =
      true := by
  refine ⟨?_, ?_, ?_⟩
  · simp [issue_access_token, refresh_with_freee, not_lt.mpr h1, not_lt.mpr h2]
  · have hfresh : (T + 21600 - SKEW : Int) > (T + 21600 - 2 * SKEW - 1) + SKEW := by
      simp [SKEW]
      omega
    simp [issue_access_token, hfresh]
  · have hstale : ¬ ((T + 21600 - SKEW : Int) > (T + 21600 - 2 * SKEW + 1) + SKEW) := by
      simp [SKEW]
      omega
    cases resp2 with
    | success a2 ei2 rto2 typ2 sc2 => simp [issue_access_token, refresh_with_freee, hstale]
    | failure t2 => simp [issue_access_token, refresh_with_freee, hstale]
    | timeout => simp [issue_access_token, refresh_with_freee, hstale]

/-- Witness for C2_skew_amended at T = 0 with a stale zero-expiry record. -/
theorem C2_skew_amended_witness :
    (issue_access_token (some ⟨"a", "r", 0, none, none⟩) 0 0 ⟨"a", "r", 0, none, none⟩ 0
        (.success "b" (some 21600) none none none)).written =
      some (save_freee_row "b" "r" (0 + 21600 - SKEW) none none) ∧
    issue_access_token (some ⟨"b", "r", 0 + 21600 - SKEW, none, none⟩) (0 + 21600 - 2 * SKEW - 1)
        (0 + 21600 - 2 * SKEW - 1) ⟨"b", "r", 0 + 21600 - SKEW, none, none⟩ 99
        (.success "c" (some 21600) none none none) =
      ⟨.ok ("b", 0 + 21600 - SKEW), false, none⟩ ∧
    (issue_access_token (some ⟨"b", "r", 0 + 21600 - SKEW, none, none⟩) (0 + 21600 - 2 * SKEW + 1)
        (0 + 21600 - 2 * SKEW + 1) ⟨"b", "r", 0 + 21600 - SKEW, none, none⟩ 99
        (.success "c" (some 21600) none none none)).issuerCalled = true :=
  C2_skew_amended 0 99 0 0 ⟨"a", "r", 0, none, none⟩ ⟨"a", "r", 0, none, none⟩ "b" "r"
    none none none none none (.success "c" (some 21600) none none none)
    (by decide) (by decide)

/-- Claim C5 counterexample: a timeout of the issuer call makes the
operation fail, but not with the RefreshRejected kind carrying provider
detail: the uncaught transport exception escapes instead (the storage
part of the claim does hold, nothing is written). -/
theorem C5_timeout_counterexample :
    failsWithRefreshRejected (issue_access_token (some ⟨"a", "r", 0, none, none⟩) 0 0
        ⟨"a", "r", 0, none, none⟩ 0 .timeout) = false ∧
    (issue_access_token (some ⟨"a", "r", 0, none, none⟩) 0 0 ⟨"a", "r", 0, none, none⟩ 0
        .timeout).result = .error .transport ∧
    (issue_access_token (some ⟨"a", "r", 0, none, none⟩) 0 0 ⟨"a", "r", 0, none, none⟩ 0
        .timeout).written = none :=
  ⟨rfl, rfl, rfl⟩

/-- Claim C5 amended: a non-success issuer response makes the call fail
with HTTP 502 carrying the provider error text, and a timeout makes it
fail with an uncaught transport error; in both cases nothing is written
and the stored record after the call is the record before it. -/
theorem C5_nondestructive_amended (row rr : OAuthRow) (now1 now2 rT : Int) (t : String)
    (h1 : row.expires_at ≤ now1 + SKEW) (h2 : rr.expires_at ≤ now2 + SKEW) :
    issue_access_token (some row) now1 now2 rr rT (.failure t) =
      ⟨.error (.http 502 ("freee token refresh failed: " ++ t)), true, none⟩ ∧
    issue_access_token (some row) now1 now2 rr rT .timeout =
      ⟨.error .transport, true, none⟩ ∧
    (stepCall (some row) ⟨now1, now2, rT, .failure t⟩).2 = some row ∧
    (stepCall (some row) ⟨now1, now2, rT, .timeout⟩).2 = some row := by
  have hf : issue_access_token (some row) now1 now2 rr rT (.failure t) =
      ⟨.error (.http 502 ("freee token refresh failed: " ++ t)), true, none⟩ := by
    simp [issue_access_token, refresh_with_freee, not_lt.mpr h1, not_lt.mpr h2]
  have ht : issue_access_token (some row) now1 now2 rr rT .timeout =
      ⟨.error .transport, true, none⟩ := by
    simp [issue_access_token, refresh_with_freee, not_lt.mpr h1, not_lt.mpr h2]
  refine ⟨hf, ht, ?_, ?_⟩
  · by_cases h3 : now2 + SKEW < row.expires_at
    · simp [stepCall, issue_access_token, not_lt.mpr h1, h3]
    · simp [stepCall, issue_access_token, refresh_with_freee, not_lt.mpr h1, h3]
  · by_cases h3 : now2 + SKEW < row.expires_at
    · simp [stepCall, issue_access_token, not_lt.mpr h1, h3]
    · simp [stepCall, issue_access_token, refresh_with_freee, not_lt.mpr h1, h3]

/-- Witness for C5_nondestructive_amended at a concrete stale record. -/
theorem C5_nondestructive_amended_witness :
    issue_access_token (some ⟨"a", "r", 0, none, none⟩) 0 0 ⟨"a", "r", 0, none, none⟩ 0
        (.failure "bad grant") =
      ⟨.error (.http 502 ("freee token refresh failed: " ++ "bad grant")), true, none⟩ ∧
    issue_access_token (some ⟨"a", "r", 0, none, none⟩) 0 0 ⟨"a", "r", 0, none, none⟩ 0
        .timeout = ⟨.error .transport, true, none⟩ ∧
    (stepCall (some ⟨"a", "r", 0, none, none⟩) ⟨0, 0, 0, .failure "bad grant"⟩).2 =
      some ⟨"a", "r", 0, none, none⟩ ∧
    (stepCall (some ⟨"a", "r", 0, none, none⟩) ⟨0, 0, 0, .timeout⟩).2 =
      some ⟨"a", "r", 0, none, none⟩ :=
  C5_nondestructive_amended ⟨"a", "r", 0, none, none⟩ ⟨"a", "r", 0, none, none⟩ 0 0 0
    "bad grant" (by decide) (by decide)

/-- Helper: a true issuerLifetimeOK on a success response bounds the
reported lifetime from below by 2 * SKEW. -/
theorem issuerLifetimeOK_success {a : String} {ei : Option Int} {rto typ sc : Option String}
    (h : issuerLifetimeOK (.success a ei rto typ sc) = true) : 2 * SKEW ≤ ei.getD 21600 :=
  of_decide_eq_true h

/-- Helper: one sequential call on a seeded store keeps it seeded, never
lowers the stored expiry when the response clock is at or after the
in-transaction check and the issuer lifetime is at least 2 * SKEW, and
any successfully returned expiry equals the stored expiry after the
call. -/
theorem stepCall_some_preserves (row : OAuthRow) (e : CallEnv)
    (ht : e.now2 ≤ e.respTime) (hl : issuerLifetimeOK e.resp = true) :
    ∃ row2, (stepCall (some row) e).2 = some row2 ∧
      row.expires_at ≤ row2.expires_at ∧
      ∀ p, (stepCall (some row) e).1.result = Except.ok p → p.2 = row2.expires_at := by
  by_cases h1 : e.now1 + SKEW < row.expires_at
  · refine ⟨row, ?_, le_refl _, ?_⟩
    · simp [stepCall, issue_access_token, h1]
    · intro p hp
      simp [stepCall, issue_access_token, h1] at hp
      rw [← hp]
  · by_cases h2 : e.now2 + SKEW < row.expires_at
    · refine ⟨row, ?_, le_refl _, ?_⟩
      · simp [stepCall, issue_access_token, h1, h2]
      · intro p hp
        simp [stepCall, issue_access_token, h1, h2] at hp
        rw [← hp]
    · cases hre : e.resp with
      | success a ei rto typ sc =>
        refine ⟨save_freee_row a (rto.getD row.refresh_token)
          (e.respTime + ei.getD 21600 - SKEW) typ sc, ?_, ?_, ?_⟩
        · simp [stepCall, issue_access_token, refresh_with_freee, h1, h2, hre]
        · have hL : 2 * SKEW ≤ ei.getD 21600 := issuerLifetimeOK_success (hre ▸ hl)
          have h2a : row.expires_at ≤ e.now2 + SKEW := not_lt.mp h2
          simp only [save_freee_row]
          omega
        · intro p hp
          simp [stepCall, issue_access_token, refresh_with_freee, h1, h2, hre] at hp
          simp only [save_freee_row]
          rw [← hp]
      | failure t =>
        refine ⟨row, ?_, le_refl _, ?_⟩
        · simp [stepCall, issue_access_token, refresh_with_freee, h1, h2, hre]
        · intro p hp
          simp [stepCall, issue_access_token, refresh_with_freee, h1, h2, hre] at hp
      | timeout =>
        refine ⟨row, ?_, le_refl _, ?_⟩
        · simp [stepCall, issue_access_token, refresh_with_freee, h1, h2, hre]
        · intro p hp
          simp [stepCall, issue_access_token, refresh_with_freee, h1, h2, hre] at hp

/-- Helper: a success result prepends its returned expiry. -/
theorem returnedExpiries_cons_ok (r : CallResult) (rs : List CallResult) (p : String × Int)
    (h : r.result = Except.ok p) :
    returnedExpiries (r :: rs) = p.2 :: returnedExpiries rs := by
  simp [returnedExpiries, List.filterMap_cons, h]

/-- Helper: an error result contributes no returned expiry. -/
theorem returnedExpiries_cons_error (r : CallResult) (rs : List CallResult) (err : TokenError)
    (h : r.result = Except.error err) :
    returnedExpiries (r :: rs) = returnedExpiries rs := by
  simp [returnedExpiries, List.filterMap_cons, h]

/-- Helper: on a seeded store, sequential calls whose response clocks do
not run backwards within a call and whose successful issuer lifetimes
are at least 2 * SKEW return a non-decreasing chain of expiries, all at
or above the initial stored expiry. -/
theorem runCalls_chain (es : List CallEnv) : ∀ row : OAuthRow,
    (∀ e ∈ es, e.now2 ≤ e.respTime ∧ issuerLifetimeOK e.resp = true) →
    List.Chain' (fun x y : Int => x ≤ y) (returnedExpiries (runCalls (some row) es).1) ∧
    ∀ x ∈ returnedExpiries (runCalls (some row) es).1, row.expires_at ≤ x := by
  induction es with
  | nil =>
    intro row _
    simp [runCalls, returnedExpiries]
  | cons e es ih =>
    intro row h
    have he := h e (List.mem_cons_self e es)
    have hes : ∀ e2 ∈ es, e2.now2 ≤ e2.respTime ∧ issuerLifetimeOK e2.resp = true :=
      fun e2 he2 => h e2 (List.mem_cons_of_mem e he2)
    obtain ⟨row2, hrow2, hle, hret⟩ := stepCall_some_preserves row e he.1 he.2
    have hrun : (runCalls (some row) (e :: es)).1 =
        (stepCall (some row) e).1 :: (runCalls (some row2) es).1 := by
      show (stepCall (some row) e).1 :: (runCalls (stepCall (some row) e).2 es).1 = _
      rw [hrow2]
    obtain ⟨ihc, ihb⟩ := ih row2 hes
    cases hres : (stepCall (some row) e).1.result with
    | ok p =>
      have hp2 := hret p hres
      rw [hrun, returnedExpiries_cons_ok _ _ p hres]
      constructor
      · rw [List.chain'_cons']
        refine ⟨?_, ihc⟩
        intro y hy
        have hmem : y ∈ returnedExpiries (runCalls (some row2) es).1 :=
          List.mem_of_mem_head? hy
        have := ihb y hmem
        omega
      · intro x hx
        rcases List.mem_cons.mp hx with hx | hx
        · subst hx
          omega
        · exact le_trans hle (ihb x hx)
    | error err =>
      rw [hrun, returnedExpiries_cons_error _ _ err hres]
      exact ⟨ihc, fun x hx => le_trans hle (ihb x hx)⟩

/-- Helper: an unseeded store makes every call fail, so no expiries are
returned. -/
theorem runCalls_none_returned (es : List CallEnv) :
    returnedExpiries (runCalls none es).1 = [] := by
  induction es with
  | nil => simp [runCalls, returnedExpiries]
  | cons e es ih =>
    have hstep : stepCall none e = (⟨.error (.http 404 "seed required"), false, none⟩, none) :=
      rfl
    show returnedExpiries ((stepCall none e).1 :: (runCalls (stepCall none e).2 es).1) = []
    rw [hstep]
    rw [returnedExpiries_cons_error _ _ (.http 404 "seed required") rfl]
    exact ih

/-- Claim C8 counterexample: a sequence of two successful sequential
calls, the clocks strictly advancing, whose second refresh is answered
with a 30 second lifetime, returns the expiries 100 then 20: the
returned expiries are not monotonically non-decreasing. -/
theorem C8_counterexample :
    returnedExpiries (runCalls (some ⟨"a", "r", 100, none, none⟩)
        [⟨30, 30, 30, .success "x" (some 21600) none none none⟩,
         ⟨50, 50, 50, .success "b" (some 30) none none none⟩]).1 = [100, 20] ∧
    ¬ List.Chain' (fun x y : Int => x ≤ y) [100, 20] := by
  constructor
  · rfl
  · intro hc
    rw [List.chain'_cons] at hc
    have : (100 : Int) ≤ 20 := hc.1
    omega

/-- Claim C8 amended: for any sequence of sequential calls in which each
issuer response is handled no earlier than the in-transaction check of
its call and every successful issuer response reports a lifetime of at
least 2 * SKEW seconds (the default 21600 qualifies), the expiries of
successively returned tokens are monotonically non-decreasing. -/
theorem C8_monotone_amended (s : Option OAuthRow) (es : List CallEnv)
    (h : ∀ e ∈ es, e.now2 ≤ e.respTime ∧ issuerLifetimeOK e.resp = true) :
    List.Chain' (fun x y : Int => x ≤ y) (returnedExpiries (runCalls s es).1) := by
  cases s with
  | none =>
    rw [runCalls_none_returned]
    exact List.chain'_nil
  | some row => exact (runCalls_chain es row h).1

/-- Witness for C8_monotone_amended on a concrete two-call trace. -/
theorem C8_monotone_amended_witness :
    List.Chain' (fun x y : Int => x ≤ y) (returnedExpiries
      (runCalls (some ⟨"a", "r", 100, none, none⟩)
        [⟨30, 30, 30, .success "x" (some 21600) none none none⟩,
         ⟨50, 50, 55, .success "b" (some 21600) none none none⟩]).1) :=
  C8_monotone_amended (some ⟨"a", "r", 100, none, none⟩)
    [⟨30, 30, 30, .success "x" (some 21600) none none none⟩,
     ⟨50, 50, 55, .success "b" (some 21600) none none none⟩] (by decide)
